import Mathlib

/-!
Verification of the gokoncurent concurrency-primitive library.

Each Go primitive is embedded shallowly: the shared mutable fields of a
primitive become a Lean structure, the atomic sections of its methods become
pure state-transition functions, and pointer validity (nil checks) becomes
explicit bookkeeping.  Machine integers (Go int / int64) are modelled as
unbounded Int: none of the verified scenarios approaches 2^63.
-/

namespace Arc

/--
State of one shared Arc allocation, from pkg/arc/arc.go.  A Go handle is a
pointer to a two-field struct; handles that alias one allocation share the
atomic counter.  `count` is the shared refCount value, `valid` lists the ids
of handles whose `data` and `refCount` fields are still non-nil (Drop clears
those fields only on the handle that performed the release), `released`
counts how many times the underlying data was released, and `nextId` feeds
fresh handle ids to Clone.
-/
structure State where
  count : Int
  valid : List Nat
  released : Nat
  nextId : Nat
  deriving Repr, DecidableEq

/-- Translated from NewArc (arc.go): refCount stores 1, one valid handle. -/
def NewArc : State :=
  { count := 1, valid := [0], released := 0, nextId := 1 }

/--
Translated from Clone (arc.go).  A nil receiver yields nil.  Otherwise the
shared counter is incremented; if the incremented value is at most 1 the
increment is undone and nil is returned, else a fresh handle aliasing the
same allocation is returned.  The argument is the id of the receiver handle
(`none` models a nil receiver).
-/
def Clone (s : State) (h : Option Nat) : State × Option Nat :=
  match h with
  | none => (s, none)
  | some hid =>
    if hid ∈ s.valid then
      let newCount := s.count + 1
      if newCount ≤ 1 then (s, none)
      else
        (⟨newCount, s.valid ++ [s.nextId], s.released, s.nextId + 1⟩, some s.nextId)
    else (s, none)

/--
Translated from Drop (arc.go).  A nil receiver, or a receiver whose `data`
or `refCount` field is nil (it already performed the release), returns false
without touching the counter.  Otherwise the counter is decremented; when
the result is 0 this call releases the data, clears the fields of the
receiver handle, and returns true; otherwise it returns false and the
receiver keeps its fields.
-/
def Drop (s : State) (h : Option Nat) : State × Bool :=
  match h with
  | none => (s, false)
  | some hid =>
    if hid ∈ s.valid then
      let c := s.count - 1
      if c = 0 then
        (⟨c, s.valid.erase hid, s.released + 1, s.nextId⟩, true)
      else ({ s with count := c }, false)
    else (s, false)

/-- N clones taken from the original handle (id 0), oldest first. -/
def CloneN : Nat → State
  | 0 => NewArc
  | n + 1 => (Clone (CloneN n) (some 0)).1

/-- Folds Drop over a list of handle ids, counting the calls that return true. -/
def DropAll : State → List Nat → State × Nat
  | s, [] => (s, 0)
  | s, h :: t =>
    let r := Drop s (some h)
    let r2 := DropAll r.1 t
    (r2.1, (if r.2 then 1 else 0) + r2.2)

end Arc

namespace RWArcMutex

/--
State of one RWArcMutex cell, from pkg/rwarcmutex/rwarcmutex.go.  Clone
returns the receiver pointer itself, so all live handles are the same
object; only the shared fields matter.  `hasValue` records whether the
`value` pointer is still non-nil.
-/
structure State where
  refcnt : Int
  closed : Bool
  hasValue : Bool
  deriving Repr, DecidableEq

/-- Translated from NewRWArcMutex: refcnt stores 1, open, value present. -/
def NewRWArcMutex : State :=
  { refcnt := 1, closed := false, hasValue := true }

/--
Translated from Clone (rwarcmutex.go): a nil or closed cell yields nil
without touching the counter; otherwise the counter is incremented and the
same cell is returned.  The Bool reports whether a non-nil handle came back.
-/
def Clone (s : State) : State × Bool :=
  if s.closed then (s, false)
  else ({ s with refcnt := s.refcnt + 1 }, true)

/--
Translated from Drop (rwarcmutex.go): the counter is decremented
unconditionally (only a nil receiver is guarded); exactly when the
decremented value is 0 the cell is closed and its value pointer cleared.
-/
def Drop (s : State) : State :=
  let c := s.refcnt - 1
  if c = 0 then { refcnt := c, closed := true, hasValue := false }
  else { s with refcnt := c }

/-- Translated from RefCount (rwarcmutex.go). -/
def RefCount (s : State) : Int :=
  s.refcnt

end RWArcMutex

namespace Barrier

/--
State of one Barrier, from the barrier package source (embedded in the
provided tree): capacity `count`, current arrivals `waiting`, cycle
`gen`, the shared reference counter and the `broken` flag.
-/
structure State where
  count : Int
  waiting : Int
  gen : Int
  refCount : Int
  broken : Bool
  deriving Repr, DecidableEq

/--
Translated from NewBarrier: panics when the requested capacity is not
positive (modelled as `none`); otherwise count = n, waiting = 0, gen = 0,
refCount = 1, broken = false.
-/
def NewBarrier (n : Int) : Option State :=
  if n ≤ 0 then none
  else some { count := n, waiting := 0, gen := 0, refCount := 1, broken := false }

/--
Outcome of the mutex-protected section of Wait: an immediate false return
on a broken barrier, an immediate true return by the arrival completing the
cycle, or parking with the generation captured at entry.
-/
inductive WaitOutcome where
  | brokenImmediate
  | completed
  | parked (myGen : Int)
  deriving Repr, DecidableEq

/-- Return value of Wait for each outcome; `none` means the caller blocks. -/
def WaitOutcome.retVal : WaitOutcome → Option Bool
  | .brokenImmediate => some false
  | .completed => some true
  | .parked _ => none

/--
Translated from Wait (barrier package): under the mutex, a broken barrier
returns false at once; otherwise the current generation is captured and
`waiting` is incremented; when the incremented value equals `count` the
generation advances by one, `waiting` resets to 0, all parked callers are
woken by the broadcast, and the call returns true; otherwise the caller
parks on the condition variable.
-/
def Wait (s : State) : State × WaitOutcome :=
  if s.broken then (s, .brokenImmediate)
  else
    let myGen := s.gen
    let w := s.waiting + 1
    if w = s.count then
      ({ s with gen := s.gen + 1, waiting := 0 }, .completed)
    else
      ({ s with waiting := w }, .parked myGen)

/--
Wake condition of a parked Wait caller, from its loop
`for !b.broken && myGen == b.gen { b.cond.Wait() }`: the caller leaves the
loop exactly when the barrier is broken or the generation moved on.
-/
def wakeReady (s : State) (myGen : Int) : Bool :=
  s.broken || decide (myGen ≠ s.gen)

/-- Return value of a parked Wait caller once its wake condition holds. -/
def wakeRetVal (s : State) : Bool :=
  !s.broken

/--
Translated from Reset (barrier package): panics (modelled as `none`) when
some caller is waiting; otherwise the capacity is set to the new value and
`broken` is cleared, with no validation of the new capacity.
-/
def Reset (s : State) (n : Int) : Option State :=
  if s.waiting ≠ 0 then none
  else some { s with count := n, broken := false }

/-- Translated from Clone (barrier package): unconditional increment. -/
def Clone (s : State) : State :=
  { s with refCount := s.refCount + 1 }

/--
Translated from Drop (barrier package): the CAS loop leaves a counter that
is already at or below zero alone; otherwise it decrements, and the call
that reaches zero sets `broken` and broadcasts.
-/
def Drop (s : State) : State :=
  if s.refCount ≤ 0 then s
  else
    let c := s.refCount - 1
    if c = 0 then { s with refCount := c, broken := true }
    else { s with refCount := c }

/-- The barrier operations, for statements quantifying over one step. -/
inductive Op where
  | wait
  | clone
  | drop
  | reset (n : Int)
  deriving Repr, DecidableEq

/-- Whether an operation is the explicit reset. -/
def Op.isReset : Op → Bool
  | .reset _ => true
  | _ => false

/-- One step of the barrier state machine; `none` models a panic. -/
def step (s : State) : Op → Option State
  | .wait => some (Wait s).1
  | .clone => some (Clone s)
  | .drop => some (Drop s)
  | .reset n => Reset s n

end Barrier

namespace ArcMutex

/--
State visible to one ArcMutex handle, from pkg/arcmutex/arcmutex.go.
`handleNil` models `am == nil || am.inner == nil`, `dataNil` models
`am.inner.Get() == nil`, `locked` is the payload mutex and `data` the
guarded value.
-/
structure State (T : Type) where
  handleNil : Bool
  dataNil : Bool
  locked : Bool
  data : T
  deriving Repr, DecidableEq

/--
Translated from TryWithLock (arcmutex.go): nil receiver, nil inner Arc or
nil callback return false; a dropped inner allocation returns false; a held
mutex returns false without running the callback; otherwise the callback
runs on the guarded value under the mutex and the call returns true.
-/
def TryWithLock {T : Type} (s : State T) (fn : Option (T → T)) : State T × Bool :=
  match fn with
  | none => (s, false)
  | some f =>
    if s.handleNil then (s, false)
    else if s.dataNil then (s, false)
    else if s.locked then (s, false)
    else ({ s with data := f s.data }, true)

/--
Translated from TryLock (arcmutex.go).  The guards match TryWithLock.  With
a non-positive timeout the mutex is tried once, exactly as in TryWithLock.
With a positive timeout the method polls the mutex against a wall-clock
deadline; that loop depends on real time, so its result is supplied as the
explicit argument `poll`, which the non-positive-timeout path never uses.
-/
def TryLock {T : Type} (s : State T) (timeout : Int) (fn : Option (T → T))
    (poll : State T × Bool) : State T × Bool :=
  match fn with
  | none => (s, false)
  | some f =>
    if s.handleNil then (s, false)
    else if s.dataNil then (s, false)
    else if timeout ≤ 0 then
      if s.locked then (s, false)
      else ({ s with data := f s.data }, true)
    else poll

end ArcMutex

namespace CondVar

/-- Which event wins the select race inside WaitWithContext. -/
inductive RaceWinner where
  | signaled
  | cancelled
  deriving Repr, DecidableEq

/-- Mutex and condition-variable actions taken by WaitWithContext. -/
inductive Action where
  | lockMutex
  | condSignal
  | unlockMutex
  deriving Repr, DecidableEq

/--
Translated from WaitWithContext (condvar package): an auxiliary goroutine
runs the native cond.Wait and sends true on a buffered channel; the caller
selects between that channel and context cancellation.  The function maps
the race winner to the boolean result together with the list of actions the
chosen branch performs on the condition variable itself: the cancellation
branch locks the mutex, issues the compensating Signal that releases the
auxiliary waiter from the native wait, unlocks, and returns false; the
signalled branch returns the received true and touches nothing.
-/
def WaitWithContext : RaceWinner → Bool × List Action
  | .signaled => (true, [])
  | .cancelled => (false, [.lockMutex, .condSignal, .unlockMutex])

end CondVar

namespace OnceCell

/--
Modelled from the spec: the OnceCell implementation file (oncecell.go) is
not part of the provided sources, only its tests and callers are, so the
cell is modelled from spec section 4.6 and section 3: a tri-state
single-assignment cell, Empty or holding a value.
-/
structure Cell (T : Type) where
  value : Option T
  deriving Repr, DecidableEq

/--
Modelled from the spec: the retry loop of get_or_init_with_retry invokes
the initializer at most the given number of times, keeping the last error.
The initializer is modelled as the outcome of each successive invocation;
the tuple returns the loop result together with the number of invocations
made.  An error value of `none` means the loop made no attempt at all.
-/
def retryLoop {E T : Type} (f : Nat → Except E T) :
    Nat → Nat → Option E → Except (Option E) T × Nat
  | 0, calls, last => (.error last, calls)
  | k + 1, calls, _last =>
    match f calls with
    | .ok v => (.ok v, calls + 1)
    | .error e => retryLoop f k (calls + 1) (some e)

/--
Modelled from the spec: get_or_init_with_retry (absent oncecell.go) per
spec section 4.6: an Initialized cell returns its value immediately without
invoking the initializer; otherwise the initializer runs up to max_attempts
times; the first success is stored and returned; if every attempt fails the
last error is returned and the cell is left Empty; with max_attempts zero
the call fails immediately without invoking the initializer.  Returns the
final cell, the result and the number of initializer invocations.
-/
def GetOrInitWithRetry {E T : Type} (c : Cell T) (f : Nat → Except E T)
    (maxAttempts : Nat) : Cell T × Except (Option E) T × Nat :=
  match c.value with
  | some v => (c, .ok v, 0)
  | none =>
    match retryLoop f maxAttempts 0 none with
    | (.ok v, n) => (⟨some v⟩, .ok v, n)
    | (.error e, n) => (c, .error e, n)

/--
Translated from oncecell_test.go, TestOnceCellGetOrInitWithRetry, subtest
named all retries fail: after a call in which every attempt fails, the test
asserts that cell.IsInitialized() returns true (the subtest comment reads:
Cell should be initialized even after failed retries).
-/
def allRetriesFailTestExpectation : Bool := true

end OnceCell

/-- Drop on a live handle that is not the last reference: the counter goes
down by one, the handle keeps its fields, the call returns false. -/
theorem arc_drop_live_nonlast (s : Arc.State) (h : Nat) (hh : h ∈ s.valid)
    (hc : s.count - 1 ≠ 0) :
    Arc.Drop s (some h) = ({ s with count := s.count - 1 }, false) := by
  simp [Arc.Drop, hh, hc]

/-- Drop on a live handle that is the last reference: the counter reaches
zero, the data is released, the call returns true. -/
theorem arc_drop_live_last (s : Arc.State) (h : Nat) (hh : h ∈ s.valid)
    (hc : s.count - 1 = 0) :
    Arc.Drop s (some h) =
      (⟨s.count - 1, s.valid.erase h, s.released + 1, s.nextId⟩, true) := by
  simp [Arc.Drop, hh, hc]

/-- After N clones of the original handle the shared counter is N + 1, the
live handles are exactly ids 0..N, and nothing has been released. -/
theorem arc_cloneN_spec (n : Nat) :
    Arc.CloneN n =
      ⟨(n : Int) + 1, List.range (n + 1), 0, n + 1⟩ := by
  induction n with
  | zero => rfl
  | succ n ih =>
    have h0 : (0 : Nat) ∈ List.range (n + 1) := List.mem_range.mpr (Nat.succ_pos n)
    have hgt : ¬ ((n : Int) + 1 + 1 ≤ 1) := by omega
    simp only [Arc.CloneN, ih, Arc.Clone]
    rw [if_pos h0, if_neg hgt]
    simp [List.range_succ, Arc.State.mk.injEq]

/-- Dropping each live handle exactly once, in any order, takes the counter
to zero, releases exactly once, and exactly one of the drops returns true. -/
theorem arc_dropAll_spec :
    ∀ (l : List Nat) (s : Arc.State), l.Nodup → (∀ h, h ∈ l → h ∈ s.valid) →
      s.count = (l.length : Int) → l ≠ [] →
      (Arc.DropAll s l).1.count = 0 ∧ (Arc.DropAll s l).2 = 1 ∧
      (Arc.DropAll s l).1.released = s.released + 1 := by
  intro l
  induction l with
  | nil => intro s _ _ _ hne; exact absurd rfl hne
  | cons h t ih =>
    intro s _hnd hmem hcount _
    have hh : h ∈ s.valid := hmem h (List.mem_cons_self h t)
    cases t with
    | nil =>
      have hc : s.count - 1 = 0 := by
        rw [hcount]; simp
      simp [Arc.DropAll, arc_drop_live_last s h hh hc, hc]
    | cons a t2 =>
      have hc : s.count - 1 ≠ 0 := by
        rw [hcount]; simp [List.length_cons]; omega
      have hstep := arc_drop_live_nonlast s h hh hc
      have hmem2 : ∀ x, x ∈ a :: t2 → x ∈ s.valid := by
        intro x hx
        exact hmem x (List.mem_cons_of_mem h hx)
      have hcount2 : s.count - 1 = ((a :: t2).length : Int) := by
        rw [hcount]; simp [List.length_cons]
      have hrest := ih ({ s with count := s.count - 1 }) _hnd.of_cons hmem2 hcount2
        (List.cons_ne_nil a t2)
      simp only [Arc.DropAll, hstep]
      simpa using hrest

/--
Claim C1: starting from a freshly created handle (refcount 1), making N
clones and then calling Drop exactly once on each of the N + 1 handles, in
any order, leaves the shared reference count at exactly 0, releases the
underlying data exactly once, and exactly one of the N + 1 Drop calls
returns true.
-/
theorem arc_clone_drop_balanced (N : Nat) (p : List Nat)
    (hp : p.Perm (List.range (N + 1))) :
    (Arc.DropAll (Arc.CloneN N) p).1.count = 0 ∧
    (Arc.DropAll (Arc.CloneN N) p).2 = 1 ∧
    (Arc.DropAll (Arc.CloneN N) p).1.released = 1 := by
  have hnd : p.Nodup := hp.symm.nodup (List.nodup_range (N + 1))
  have hmem : ∀ h, h ∈ p → h ∈ (Arc.CloneN N).valid := by
    intro h hh
    rw [arc_cloneN_spec]
    exact hp.subset hh
  have hlen : p.length = N + 1 := by
    simpa using hp.length_eq
  have hcount : (Arc.CloneN N).count = (p.length : Int) := by
    rw [arc_cloneN_spec, hlen]
    push_cast
    ring
  have hne : p ≠ [] := by
    intro h
    rw [h] at hlen
    simp at hlen
  have hmain := arc_dropAll_spec p (Arc.CloneN N) hnd hmem hcount hne
  have hrel : (Arc.CloneN N).released = 0 := by rw [arc_cloneN_spec]
  exact ⟨hmain.1, hmain.2.1, by rw [hmain.2.2, hrel]⟩

/--
Witness for C1: two clones of the original, then the three handles dropped
in the order second clone, original, first clone.
-/
theorem arc_clone_drop_balanced_witness :
    (Arc.DropAll (Arc.CloneN 2) [2, 0, 1]).1.count = 0 ∧
    (Arc.DropAll (Arc.CloneN 2) [2, 0, 1]).2 = 1 ∧
    (Arc.DropAll (Arc.CloneN 2) [2, 0, 1]).1.released = 1 :=
  arc_clone_drop_balanced 2 [2, 0, 1] (by decide)

/--
Claim C3, counterexample: create a handle, clone it once, then Drop the
original twice.  The first Drop returns false and leaves the count at 1;
the claim says the second Drop on the same already-dropped handle is a
no-op returning false that leaves the count unchanged, but the code
decrements again: the second Drop returns true, performs the release and
drives the shared count to 0 while the clone still holds it.
-/
theorem arc_double_drop_counterexample :
    (Arc.Drop (Arc.Clone Arc.NewArc (some 0)).1 (some 0)).2 = false ∧
    (Arc.Drop (Arc.Clone Arc.NewArc (some 0)).1 (some 0)).1.count = 1 ∧
    (Arc.Drop (Arc.Drop (Arc.Clone Arc.NewArc (some 0)).1 (some 0)).1 (some 0)).2 = true ∧
    (Arc.Drop (Arc.Drop (Arc.Clone Arc.NewArc (some 0)).1 (some 0)).1 (some 0)).1.count = 0 := by
  decide

/--
Claim C3, amended: Drop on a nil handle, or on a handle whose fields were
cleared because it performed the release (or that never was live), is a
no-op returning false that leaves the shared count unchanged; on a live
handle Drop always decrements the count by one and returns true exactly
when this call decremented the count to zero.  A live handle whose earlier
Drop did not perform the release is indistinguishable from an undropped one
and a further Drop decrements the count again.
-/
theorem arc_drop_noop_only_when_invalid :
    (∀ s : Arc.State, Arc.Drop s none = (s, false)) ∧
    (∀ (s : Arc.State) (h : Nat), h ∉ s.valid → Arc.Drop s (some h) = (s, false)) ∧
    (∀ (s : Arc.State) (h : Nat), h ∈ s.valid →
      (Arc.Drop s (some h)).1.count = s.count - 1 ∧
      ((Arc.Drop s (some h)).2 = true ↔ s.count = 1)) := by
  refine ⟨fun s => rfl, fun s h hh => by simp [Arc.Drop, hh], fun s h hh => ?_⟩
  constructor
  · by_cases hc : s.count - 1 = 0
    · simp [Arc.Drop, hh, hc]
    · simp [Arc.Drop, hh, hc]
  · by_cases hc : s.count - 1 = 0
    · simp [Arc.Drop, hh, hc]
      omega
    · simp [Arc.Drop, hh, hc]
      omega

/--
Witness for the amended C3: a released handle id 5 is not live in a fresh
cell, so dropping it is a no-op; dropping the single live handle of a fresh
cell decrements 1 to 0 and reports the release.
-/
theorem arc_drop_noop_only_when_invalid_witness :
    Arc.Drop Arc.NewArc (some 5) = (Arc.NewArc, false) ∧
    (Arc.Drop Arc.NewArc (some 0)).1.count = Arc.NewArc.count - 1 ∧
    ((Arc.Drop Arc.NewArc (some 0)).2 = true ↔ Arc.NewArc.count = 1) :=
  ⟨arc_drop_noop_only_when_invalid.2.1 Arc.NewArc 5 (by decide),
   (arc_drop_noop_only_when_invalid.2.2 Arc.NewArc 0 (by decide)).1,
   (arc_drop_noop_only_when_invalid.2.2 Arc.NewArc 0 (by decide)).2⟩

/--
Claim C4, counterexample: create an RWArcMutex (count 1), Drop it (count 0,
closed), then Drop again.  The claim says dropping at count zero is a no-op
that never drives the count negative, but the code decrements
unconditionally: the reference count becomes -1.
-/
theorem rw_drop_at_zero_goes_negative :
    (RWArcMutex.Drop RWArcMutex.NewRWArcMutex).refcnt = 0 ∧
    (RWArcMutex.Drop (RWArcMutex.Drop RWArcMutex.NewRWArcMutex)).refcnt = -1 ∧
    RWArcMutex.RefCount (RWArcMutex.Drop (RWArcMutex.Drop RWArcMutex.NewRWArcMutex)) < 0 := by
  decide

/--
Claim C4, amended: Clone on a non-closed cell increments the count by one
(on a closed cell it returns nil and leaves the count unchanged); Drop
always decrements the count by exactly one — there is no guard at zero, so
a Drop when the count is already zero drives it negative — and sets closed
exactly at the transition to zero (count 1 before the call), never
clearing it afterwards.
-/
theorem rw_refcount_step_contract :
    (∀ s : RWArcMutex.State, s.closed = false →
      RWArcMutex.Clone s = ({ s with refcnt := s.refcnt + 1 }, true)) ∧
    (∀ s : RWArcMutex.State, s.closed = true → RWArcMutex.Clone s = (s, false)) ∧
    (∀ s : RWArcMutex.State, (RWArcMutex.Drop s).refcnt = s.refcnt - 1) ∧
    (∀ s : RWArcMutex.State,
      (RWArcMutex.Drop s).closed = (decide (s.refcnt = 1) || s.closed)) := by
  refine ⟨fun s hs => by simp [RWArcMutex.Clone, hs],
    fun s hs => by simp [RWArcMutex.Clone, hs], fun s => ?_, fun s => ?_⟩
  · by_cases hc : s.refcnt - 1 = 0 <;> simp [RWArcMutex.Drop, hc]
  · by_cases hc : s.refcnt - 1 = 0
    · have h1 : s.refcnt = 1 := by omega
      simp [RWArcMutex.Drop, hc, h1]
    · have h1 : s.refcnt ≠ 1 := by omega
      simp [RWArcMutex.Drop, hc, h1]

/--
Witness for the amended C4: a fresh cell clones to count 2; a closed cell
refuses to clone; dropping a fresh cell lowers the count by one and closes
it at the 1 to 0 transition.
-/
theorem rw_refcount_step_contract_witness :
    RWArcMutex.Clone RWArcMutex.NewRWArcMutex =
      ({ RWArcMutex.NewRWArcMutex with refcnt := 2 }, true) ∧
    RWArcMutex.Clone ⟨0, true, false⟩ = (⟨0, true, false⟩, false) ∧
    (RWArcMutex.Drop RWArcMutex.NewRWArcMutex).refcnt =
      RWArcMutex.NewRWArcMutex.refcnt - 1 ∧
    (RWArcMutex.Drop RWArcMutex.NewRWArcMutex).closed =
      (decide (RWArcMutex.NewRWArcMutex.refcnt = 1) || RWArcMutex.NewRWArcMutex.closed) :=
  ⟨rw_refcount_step_contract.1 RWArcMutex.NewRWArcMutex rfl,
   rw_refcount_step_contract.2.1 ⟨0, true, false⟩ rfl,
   rw_refcount_step_contract.2.2.1 RWArcMutex.NewRWArcMutex,
   rw_refcount_step_contract.2.2.2 RWArcMutex.NewRWArcMutex⟩

/--
Claim C5: on a broken barrier Wait returns false immediately with the state
unchanged; otherwise it increments waiting, and when this arrival makes
waiting equal to the capacity it resets waiting to 0, advances the
generation by exactly one, satisfies the wake condition of every parked
caller (of the completed generation and every earlier one), and returns
true without itself blocking.
-/
theorem barrier_wait_step :
    (∀ s : Barrier.State, s.broken = true →
      Barrier.Wait s = (s, .brokenImmediate) ∧
      Barrier.WaitOutcome.brokenImmediate.retVal = some false) ∧
    (∀ s : Barrier.State, s.broken = false → s.waiting + 1 = s.count →
      Barrier.Wait s = ({ s with gen := s.gen + 1, waiting := 0 }, .completed) ∧
      Barrier.WaitOutcome.completed.retVal = some true ∧
      ∀ g : Int, g ≤ s.gen → Barrier.wakeReady (Barrier.Wait s).1 g = true) ∧
    (∀ s : Barrier.State, s.broken = false → s.waiting + 1 ≠ s.count →
      Barrier.Wait s = ({ s with waiting := s.waiting + 1 }, .parked s.gen)) := by
  refine ⟨fun s hs => ⟨by simp [Barrier.Wait, hs], rfl⟩,
    fun s hs hc => ⟨by simp [Barrier.Wait, hs, hc], rfl, fun g hg => ?_⟩,
    fun s hs hc => by simp [Barrier.Wait, hs, hc]⟩
  have hgoal : Barrier.Wait s = ({ s with gen := s.gen + 1, waiting := 0 }, .completed) := by
    simp [Barrier.Wait, hs, hc]
  rw [hgoal]
  simp [Barrier.wakeReady]
  omega

/--
Witness for C5: a broken two-capacity barrier rejects a waiter; a fresh
one-capacity barrier completes at once and wakes generation zero; a fresh
two-capacity barrier parks its first waiter.
-/
theorem barrier_wait_step_witness :
    Barrier.Wait ⟨2, 0, 0, 1, true⟩ = (⟨2, 0, 0, 1, true⟩, .brokenImmediate) ∧
    Barrier.Wait ⟨1, 0, 0, 1, false⟩ = (⟨1, 0, 1, 1, false⟩, .completed) ∧
    Barrier.wakeReady (Barrier.Wait ⟨1, 0, 0, 1, false⟩).1 0 = true ∧
    Barrier.Wait ⟨2, 0, 0, 1, false⟩ = (⟨2, 1, 0, 1, false⟩, .parked 0) :=
  ⟨(barrier_wait_step.1 ⟨2, 0, 0, 1, true⟩ rfl).1,
   (barrier_wait_step.2.1 ⟨1, 0, 0, 1, false⟩ rfl rfl).1,
   (barrier_wait_step.2.1 ⟨1, 0, 0, 1, false⟩ rfl rfl).2.2 0 le_rfl,
   barrier_wait_step.2.2 ⟨2, 0, 0, 1, false⟩ rfl (by decide)⟩

/--
Claim C6: once broken is true it stays true under every operation except an
explicit Reset, which clears it; and while broken is true every Wait call
returns false — both a Wait entered while broken (immediate false) and a
parked Wait that wakes while broken.
-/
theorem barrier_broken_monotonic :
    (∀ (s s2 : Barrier.State) (op : Barrier.Op), s.broken = true →
      op.isReset = false → Barrier.step s op = some s2 → s2.broken = true) ∧
    (∀ s : Barrier.State, s.broken = true →
      Barrier.Wait s = (s, .brokenImmediate) ∧ Barrier.wakeRetVal s = false) ∧
    (∀ (s s2 : Barrier.State) (n : Int), Barrier.Reset s n = some s2 →
      s2.broken = false) := by
  refine ⟨fun s s2 op hb hop hstep => ?_,
    fun s hb => ⟨by simp [Barrier.Wait, hb], by simp [Barrier.wakeRetVal, hb]⟩,
    fun s s2 n hstep => ?_⟩
  · cases op with
    | wait =>
      simp only [Barrier.step, Option.some.injEq] at hstep
      rw [← hstep]
      simp [Barrier.Wait, hb]
    | clone =>
      simp only [Barrier.step, Option.some.injEq] at hstep
      rw [← hstep]
      simp [Barrier.Clone, hb]
    | drop =>
      simp only [Barrier.step, Option.some.injEq] at hstep
      rw [← hstep]
      by_cases h0 : s.refCount ≤ 0
      · simp [Barrier.Drop, h0, hb]
      · by_cases h1 : s.refCount - 1 = 0 <;> simp [Barrier.Drop, h0, h1, hb]
    | reset n => simp [Barrier.Op.isReset] at hop
  · by_cases hw : s.waiting ≠ 0
    · simp [Barrier.Reset, hw] at hstep
    · simp only [Barrier.Reset, hw, if_false, Option.some.injEq] at hstep
      rw [← hstep]

/--
Claim C8: barrier precondition violations are fatal aborts, not recoverable
errors: NewBarrier panics exactly when the requested capacity is at most
zero, and Reset panics exactly when some caller is currently counted as
waiting.
-/
theorem barrier_precondition_panics :
    (∀ n : Int, Barrier.NewBarrier n = none ↔ n ≤ 0) ∧
    (∀ (s : Barrier.State) (n : Int), Barrier.Reset s n = none ↔ s.waiting ≠ 0) := by
  constructor
  · intro n
    by_cases h : n ≤ 0 <;> simp [Barrier.NewBarrier, h]
  · intro s n
    by_cases h : s.waiting ≠ 0 <;> simp [Barrier.Reset, h]

/--
Claim C10: Reset called when nobody is waiting accepts every new capacity,
including non-positive ones, without aborting: it unconditionally installs
the new capacity and clears broken, with no validation analogous to the
capacity check in NewBarrier.
-/
theorem barrier_reset_accepts_any_capacity (s : Barrier.State) (n : Int)
    (h : s.waiting = 0) :
    Barrier.Reset s n = some { s with count := n, broken := false } := by
  simp [Barrier.Reset, h]

/--
Witness for C10: resetting an idle broken barrier to the non-positive
capacity -3 succeeds and clears broken.
-/
theorem barrier_reset_accepts_any_capacity_witness :
    Barrier.Reset ⟨3, 0, 5, 1, true⟩ (-3) = some ⟨-3, 0, 5, 1, false⟩ :=
  barrier_reset_accepts_any_capacity ⟨3, 0, 5, 1, true⟩ (-3) rfl

/--
Claim C7: for every handle state, every callback and every non-positive
timeout, TryLock behaves exactly like TryWithLock: the same boolean result
and the same effect on the guarded payload, whatever the polling branch
would have produced.
-/
theorem arcmutex_trylock_nonpos_eq_trywithlock {T : Type} (s : ArcMutex.State T)
    (timeout : Int) (fn : Option (T → T)) (poll : ArcMutex.State T × Bool)
    (h : timeout ≤ 0) :
    ArcMutex.TryLock s timeout fn poll = ArcMutex.TryWithLock s fn := by
  cases fn with
  | none => rfl
  | some f => simp [ArcMutex.TryLock, ArcMutex.TryWithLock, h]

/--
Witness for C7: a free unlocked handle guarding 0, an increment callback
and timeout 0: both paths run the callback and return true, whatever the
polling branch would have produced.
-/
theorem arcmutex_trylock_nonpos_eq_trywithlock_witness :
    ArcMutex.TryLock (⟨false, false, false, (0 : Nat)⟩ : ArcMutex.State Nat) 0
        (some fun n => n + 1) (⟨false, false, false, 99⟩, false) =
      ArcMutex.TryWithLock (⟨false, false, false, (0 : Nat)⟩ : ArcMutex.State Nat)
        (some fun n => n + 1) :=
  arcmutex_trylock_nonpos_eq_trywithlock ⟨false, false, false, 0⟩ 0
    (some fun n => n + 1) (⟨false, false, false, 99⟩, false) (by decide)

/--
Claim C9: WaitWithContext returns true when the native signal wins the race
and false when the cancellation wins; and on the cancellation path it
performs, between taking and releasing the lock, the compensating Signal on
the condition variable itself, so that the auxiliary waiter running the
native wait is released rather than blocked forever.
-/
theorem condvar_wait_with_cancellation :
    CondVar.WaitWithContext .signaled = (true, []) ∧
    (CondVar.WaitWithContext .cancelled).1 = false ∧
    (CondVar.WaitWithContext .cancelled).2 =
      [.lockMutex, .condSignal, .unlockMutex] ∧
    CondVar.Action.condSignal ∈ (CondVar.WaitWithContext .cancelled).2 := by
  refine ⟨rfl, rfl, rfl, by decide⟩

/--
Claim C2, evaluated at the failing input: on an Empty cell with an
initializer failing at every attempt and max_attempts 2, the spec-modelled
get_or_init_with_retry makes exactly 2 attempts, returns the last error and
leaves the cell Empty, exactly as the claim states; with max_attempts 0 it
fails immediately without invoking the initializer.  The final conjunct
records the divergence from the repository test, which at this very input
asserts that the cell IS initialized after the call.
-/
theorem oncecell_retry_all_fail_leaves_empty :
    OnceCell.GetOrInitWithRetry (⟨none⟩ : OnceCell.Cell Nat)
        (fun _ => .error "permanent failure") 2 =
      (⟨none⟩, .error (some "permanent failure"), 2) ∧
    OnceCell.GetOrInitWithRetry (⟨none⟩ : OnceCell.Cell Nat)
        (fun _ => .error "failure") 0 =
      (⟨none⟩, .error none, 0) ∧
    (OnceCell.GetOrInitWithRetry (⟨none⟩ : OnceCell.Cell Nat)
        (fun _ => .error "permanent failure") 2).1.value.isSome ≠
      OnceCell.allRetriesFailTestExpectation := by
  refine ⟨rfl, rfl, by decide⟩

/--
Witness for C6: one step of each non-reset operation on a broken barrier
keeps it broken, a Wait entered while broken reports false, and a
successful Reset clears broken.
-/
theorem barrier_broken_monotonic_witness :
    (Barrier.Clone ⟨2, 0, 0, 1, true⟩).broken = true ∧
    (Barrier.Wait ⟨2, 0, 0, 1, true⟩ = (⟨2, 0, 0, 1, true⟩, .brokenImmediate) ∧
      Barrier.wakeRetVal ⟨2, 0, 0, 1, true⟩ = false) ∧
    (⟨2, 0, 0, 1, false⟩ : Barrier.State).broken = false :=
  ⟨barrier_broken_monotonic.1 ⟨2, 0, 0, 1, true⟩ (Barrier.Clone ⟨2, 0, 0, 1, true⟩)
      .clone rfl rfl rfl,
   barrier_broken_monotonic.2.1 ⟨2, 0, 0, 1, true⟩ rfl,
   barrier_broken_monotonic.2.2 ⟨2, 0, 0, 1, true⟩ ⟨2, 0, 0, 1, false⟩ 2 (by decide)⟩
